import Mathlib

/-!
Shallow embedding of `crates/git_ui/src/file_comparison_picker.rs`:
the `FileComparisonDelegate` picker state machine (candidate filtering,
selection index, and the confirm pipeline that schedules an asynchronous
diff-building task and emits a dismiss signal).

External collaborators (buffers, the project's language registry, the
workspace, the pane) are modelled at their interface boundary: a buffer
carries an optional on-disk file identity, the workspace weak handle is an
`Option` (upgrade succeeds or fails), and the diff-building operation's
outcome is an `Except` parameter of the task-body function.
-/

namespace FileComparison

/-- A file identity as exposed by `language::Buffer::file()`: only the
file name is consumed by this component. -/
structure File where
  file_name : String
deriving DecidableEq, Repr

/-- An open document (`Entity<language::Buffer>`), identified by its entity
id; `file = none` models a buffer with no on-disk identity. -/
structure Buffer where
  id : Nat
  file : Option File
deriving DecidableEq, Repr

/-- The project handle; only its shared language registry is consumed
(`project.read(cx).languages()`), modelled as an opaque registry id. -/
structure Project where
  id : Nat
  languages : Nat
deriving DecidableEq, Repr

/-- One selectable entry (`FileMatch` in the source): a buffer plus the
immutable display text computed at construction. -/
structure FileMatch where
  buffer : Buffer
  display_text : String
deriving DecidableEq, Repr

/-- The picker delegate state (`FileComparisonDelegate`). The
`WeakEntity<Workspace>` field is modelled as `Option Nat`: `some w` means
the weak handle upgrades to the live workspace `w`, `none` means the
window/workspace is gone. -/
structure FileComparisonDelegate where
  active_buffer : Buffer
  workspace : Option Nat
  project : Project
  all_matches : List FileMatch
  visible_matches : List FileMatch
  selected_index : Nat
deriving DecidableEq, Repr

/-- `FileComparisonDelegate::new`: builds `all_matches` from the supplied
open-buffer list in order, clones it into `visible_matches`, and starts with
`selected_index = 0`. -/
def FileComparisonDelegate.new (active_buffer : Buffer) (workspace : Option Nat)
    (project : Project) (open_buffers : List (Buffer × String)) :
    FileComparisonDelegate :=
  let all_matches : List FileMatch :=
    open_buffers.map (fun p => { buffer := p.1, display_text := p.2 })
  { active_buffer := active_buffer
    workspace := workspace
    project := project
    all_matches := all_matches
    visible_matches := all_matches
    selected_index := 0 }

/-- `str::contains` on character lists: `pat` occurs as a contiguous
substring of `s`. Executable model of Rust substring containment. -/
def charsContains : List Char → List Char → Bool
  | [], pat => pat.isEmpty
  | c :: rest, pat => pat.isPrefixOf (c :: rest) || charsContains rest pat

/-- `str::contains` on strings. -/
def strContains (s pat : String) : Bool :=
  charsContains s.toList pat.toList

/-- `PickerDelegate::match_count`. -/
def match_count (s : FileComparisonDelegate) : Nat :=
  s.visible_matches.length

/-- `PickerDelegate::set_selected_index`:
`self.selected_index = ix.min(self.visible_matches.len().saturating_sub(1))`
(`Nat` subtraction is saturating, like `usize::saturating_sub`). -/
def set_selected_index (s : FileComparisonDelegate) (ix : Nat) :
    FileComparisonDelegate :=
  { s with selected_index := min ix (s.visible_matches.length - 1) }

/-- `PickerDelegate::update_matches`: empty query resets `visible_matches` to
`all_matches`; otherwise keep the candidates whose lowercased display text
contains the lowercased query; either way `selected_index` becomes 0. -/
def update_matches (s : FileComparisonDelegate) (query : String) :
    FileComparisonDelegate :=
  if query = "" then
    { s with visible_matches := s.all_matches, selected_index := 0 }
  else
    let query_lower := query.toLower
    { s with
      visible_matches := s.all_matches.filter
        (fun tab => strContains tab.display_text.toLower query_lower)
      selected_index := 0 }

/-- `PickerDelegate::dismissed` has an empty body: no state change. -/
def dismissed (s : FileComparisonDelegate) : FileComparisonDelegate :=
  s

/-- The arguments captured by value for the spawned diff-building task. -/
structure DiffTask where
  active_buffer : Buffer
  compare_buffer : Buffer
  languages : Nat
  project : Project
  compare_title : String
  active_title : String
  workspace : Nat
deriving DecidableEq, Repr

/-- A synchronous side effect of `confirm`, in program order. -/
inductive ConfirmEvent
  | taskSpawned (t : DiffTask)
  | dismissSignal
deriving DecidableEq, Repr

/-- Result of `confirm`: Rust's unchecked `self.visible_matches[self.selected_index]`
aborts the process when the index is out of range, modelled by `panicked`;
otherwise the (unchanged) state plus the ordered synchronous effects. -/
inductive ConfirmResult
  | panicked
  | ok (s : FileComparisonDelegate) (events : List ConfirmEvent)
deriving DecidableEq, Repr

/-- `PickerDelegate::confirm`. Guards in source order: empty `visible_matches`
returns silently; the selected candidate is then indexed (unchecked); a
failed workspace upgrade returns silently. On success the titles are
computed (`active_title` from the active buffer's file or `"Untitled"`,
`compare_title` from the stored display text), a diff task is spawned, and
the dismiss signal is emitted afterwards — both synchronously. The
`secondary` flag is unused, as in the source. -/
def confirm (s : FileComparisonDelegate) (_secondary : Bool) : ConfirmResult :=
  if s.visible_matches.isEmpty then
    ConfirmResult.ok s []
  else
    match s.visible_matches.get? s.selected_index with
    | none => ConfirmResult.panicked
    | some selected_match =>
      match s.workspace with
      | none => ConfirmResult.ok s []
      | some w =>
        let active_title : String :=
          (s.active_buffer.file.map (fun f => f.file_name)).getD "Untitled"
        let compare_title : String := selected_match.display_text
        let languages : Nat := s.project.languages
        let t : DiffTask :=
          { active_buffer := s.active_buffer
            compare_buffer := selected_match.buffer
            languages := languages
            project := s.project
            compare_title := compare_title
            active_title := active_title
            workspace := w }
        ConfirmResult.ok s [ConfirmEvent.taskSpawned t, ConfirmEvent.dismissSignal]

/-- A `TextDiffView` as constructed by the success continuation:
`TextDiffView::new_from_buffers(compare_buffer, active_buffer, diff,
project, compare_title, active_title, ..)`. -/
structure TextDiffView where
  compare_buffer : Buffer
  active_buffer : Buffer
  diff : Nat
  project : Project
  compare_title : String
  active_title : String
deriving DecidableEq, Repr

/-- Observable effects of one run of the spawned task: how many failures
were recorded by `detach_and_log_err`, and which items were inserted into
the active pane (with their `activate`/`focus` flags). -/
structure TaskOutcome where
  logFailures : Nat
  paneInsertions : List (TextDiffView × Bool × Bool)
deriving DecidableEq, Repr

/-- The body of the spawned task. `diffResult` is the outcome of the
external `build_diff_buffer` call (`?` propagates its error);
`windowAlive` is whether `workspace.update_in` can still re-enter the
window at completion time (it returns an error otherwise). Any error
reaching the end of the task is logged exactly once by
`detach_and_log_err`; the success path inserts one diff view into the
active pane with `activate = true, focus = true`. -/
def runTask (t : DiffTask) (diffResult : Except String Nat)
    (windowAlive : Bool) : TaskOutcome :=
  match diffResult with
  | Except.error _ => { logFailures := 1, paneInsertions := [] }
  | Except.ok diff =>
    if windowAlive then
      { logFailures := 0
        paneInsertions :=
          [({ compare_buffer := t.compare_buffer
              active_buffer := t.active_buffer
              diff := diff
              project := t.project
              compare_title := t.compare_title
              active_title := t.active_title }, true, true)] }
    else
      { logFailures := 1, paneInsertions := [] }

/-- Events observable on the single UI-affine timeline: the widget's
dismiss signal and the completion of a spawned diff task. -/
inductive SystemEvent
  | dismissSignal
  | taskCompleted
deriving DecidableEq, Repr

/-- Whether a synchronous confirm event is the dismiss signal. -/
def isDismiss : ConfirmEvent → Bool
  | ConfirmEvent.dismissSignal => true
  | ConfirmEvent.taskSpawned _ => false

/-- The tasks spawned by a synchronous event list, in spawn order. -/
def spawnedTasks (evs : List ConfirmEvent) : List DiffTask :=
  evs.filterMap (fun e => match e with
    | ConfirmEvent.taskSpawned t => some t
    | ConfirmEvent.dismissSignal => none)

/-- The UI-affine timeline of one confirm call under the scheduling model
of the host: `window.spawn` only enqueues the future, which is first
polled after the synchronous `confirm` body (including `cx.emit`) has
returned; so each spawned task's completion event follows every
synchronous event of the call. -/
def confirmTrace (s : FileComparisonDelegate) (secondary : Bool) :
    List SystemEvent :=
  match confirm s secondary with
  | ConfirmResult.panicked => []
  | ConfirmResult.ok _ evs =>
    evs.filterMap (fun e => match e with
      | ConfirmEvent.dismissSignal => some SystemEvent.dismissSignal
      | ConfirmEvent.taskSpawned _ => none)
    ++ (spawnedTasks evs).map (fun _ => SystemEvent.taskCompleted)

/-- A rendered list row: `ListItem::new(ix).inset(true)
.spacing(ListItemSpacing::Sparse).toggle_state(selected)
.child(Label::new(display_text))`. -/
structure ListItemRow where
  id : Nat
  inset : Bool
  sparse_spacing : Bool
  toggle_state : Bool
  label : String
deriving DecidableEq, Repr

/-- Result of `render_match`: the Rust body indexes `self.visible_matches[ix]`
unchecked, so an out-of-range `ix` aborts (`panicked`) instead of ever
returning `none`; in range it always returns `some` row. -/
inductive RenderResult
  | panicked
  | ret (r : Option ListItemRow)
deriving DecidableEq, Repr

/-- `PickerDelegate::render_match`. -/
def render_match (s : FileComparisonDelegate) (ix : Nat) (selected : Bool) :
    RenderResult :=
  match s.visible_matches.get? ix with
  | none => RenderResult.panicked
  | some file_match =>
    RenderResult.ret (some
      { id := ix
        inset := true
        sparse_spacing := true
        toggle_state := selected
        label := file_match.display_text })

/-- The selection-index invariant of the delegate state: 0 when the
visible list is empty, otherwise strictly below its length. -/
def Inv (s : FileComparisonDelegate) : Prop :=
  (s.visible_matches = [] → s.selected_index = 0) ∧
  (s.visible_matches ≠ [] → s.selected_index < s.visible_matches.length)

/-- A concrete active buffer backed by the on-disk file `a.txt`. -/
def bufA : Buffer :=
  { id := 0, file := some { file_name := "a.txt" } }

/-- A concrete candidate buffer backed by the on-disk file `b.txt`. -/
def bufB : Buffer :=
  { id := 1, file := some { file_name := "b.txt" } }

/-- A concrete project handle. -/
def proj : Project :=
  { id := 0, languages := 7 }

/-- A concrete freshly constructed delegate: active buffer `a.txt`, live
workspace `3`, one open candidate labelled `b.txt`. -/
def sampleState : FileComparisonDelegate :=
  FileComparisonDelegate.new bufA (some 3) proj [(bufB, "b.txt")]

/-- `sampleState` with the workspace weak handle dead. -/
def sampleDeadWindow : FileComparisonDelegate :=
  FileComparisonDelegate.new bufA none proj [(bufB, "b.txt")]

/-- A concrete delegate with no candidates at all. -/
def sampleEmpty : FileComparisonDelegate :=
  FileComparisonDelegate.new bufA (some 3) proj []

/-- The diff task `confirm` spawns from `sampleState`. -/
def sampleTask : DiffTask :=
  { active_buffer := bufA
    compare_buffer := bufB
    languages := 7
    project := proj
    compare_title := "b.txt"
    active_title := "a.txt"
    workspace := 3 }

/-- The synchronous effects of a successful `confirm` on `sampleState`. -/
def sampleEvents : List ConfirmEvent :=
  [ConfirmEvent.taskSpawned sampleTask, ConfirmEvent.dismissSignal]

/-- The empty pattern is contained in every string of characters. -/
theorem charsContains_nil : ∀ l : List Char, charsContains l [] = true
  | [] => rfl
  | _ :: _ => rfl

/-- The empty pattern is contained in every string. -/
theorem strContains_empty (x : String) : strContains x "" = true :=
  charsContains_nil x.toList

/-- Lowercasing the empty string gives the empty string. -/
theorem toLower_empty : "".toLower = "" := by
  rw [String.toLower, String.map, String.mapAux.eq_def]
  simp
  intro h
  exact absurd (Nat.le_refl 0) h

/-- A state whose selected index is 0 satisfies the invariant. -/
theorem Inv_of_selected_index_zero (s : FileComparisonDelegate)
    (h : s.selected_index = 0) : Inv s :=
  ⟨fun _ => h, fun hne => h ▸ List.length_pos.mpr hne⟩

/-- `confirm` never changes the delegate state: whenever it returns
normally, the resulting state is the input state. -/
theorem confirm_state_eq (s : FileComparisonDelegate) (sec : Bool)
    (s' : FileComparisonDelegate) (evs : List ConfirmEvent)
    (h : confirm s sec = ConfirmResult.ok s' evs) : s' = s := by
  unfold confirm at h
  split at h
  · exact (ConfirmResult.ok.injEq .. ▸ h).1.symm
  · cases hg : s.visible_matches.get? s.selected_index with
    | none => rw [hg] at h; exact absurd h (by simp)
    | some m =>
      rw [hg] at h
      cases hw : s.workspace with
      | none => rw [hw] at h; exact (ConfirmResult.ok.injEq .. ▸ h).1.symm
      | some w => rw [hw] at h; exact (ConfirmResult.ok.injEq .. ▸ h).1.symm

/-- Claim C4: for every query `q`, `update_matches` sets the visible list
to exactly the filter of `all_matches` by case-insensitive substring
containment of `q` in the display text, hence a subsequence of
`all_matches` in the original order; the empty query restores
`all_matches` unchanged. -/
theorem update_matches_filter_spec (s : FileComparisonDelegate) (q : String) :
    (update_matches s q).visible_matches
      = s.all_matches.filter
          (fun tab => strContains tab.display_text.toLower q.toLower) ∧
    List.Sublist (update_matches s q).visible_matches s.all_matches ∧
    (q = "" → (update_matches s q).visible_matches = s.all_matches) := by
  have hmain : (update_matches s q).visible_matches
      = s.all_matches.filter
          (fun tab => strContains tab.display_text.toLower q.toLower) := by
    by_cases hq : q = ""
    · subst hq
      have hall : s.all_matches.filter
          (fun tab => strContains tab.display_text.toLower ("".toLower))
            = s.all_matches :=
        List.filter_eq_self.mpr
          (fun a _ => by rw [toLower_empty]; exact strContains_empty _)
      simp [update_matches, hall]
    · simp [update_matches, hq]
  refine ⟨hmain, hmain ▸ List.filter_sublist s.all_matches, fun hq0 => ?_⟩
  subst hq0
  simp [update_matches]

/-- Witness for C4 at a concrete state and the empty query. -/
theorem update_matches_filter_spec_witness :
    (update_matches sampleState "").visible_matches = sampleState.all_matches :=
  (update_matches_filter_spec sampleState "").2.2 rfl

/-- Claim C7: `set_selected_index` never fails (it is a total function)
and clamps: an in-range index is taken as is, an out-of-range index on a
non-empty list yields the last valid index, and on an empty list the
selection stays 0. -/
theorem set_selected_index_spec (s : FileComparisonDelegate) (ix : Nat) :
    (ix < s.visible_matches.length →
      (set_selected_index s ix).selected_index = ix) ∧
    (s.visible_matches.length ≤ ix → s.visible_matches ≠ [] →
      (set_selected_index s ix).selected_index
        = s.visible_matches.length - 1) ∧
    (s.visible_matches = [] → (set_selected_index s ix).selected_index = 0) := by
  refine ⟨fun h => ?_, fun h hne => ?_, fun h => ?_⟩
  · show min ix (s.visible_matches.length - 1) = ix
    omega
  · show min ix (s.visible_matches.length - 1) = s.visible_matches.length - 1
    have : 0 < s.visible_matches.length := List.length_pos.mpr hne
    omega
  · show min ix (s.visible_matches.length - 1) = 0
    rw [h]
    simp

/-- Witness for C7: clamping at a concrete out-of-range index. -/
theorem set_selected_index_spec_witness :
    (set_selected_index sampleState 5).selected_index = 0 :=
  (set_selected_index_spec sampleState 5).2.1 (by decide) (by decide)

/-- Claim C8: `update_matches` is total (a plain Lean function on all
strings) and idempotent for a fixed query and fixed `all_matches`:
applying it twice equals applying it once, on the whole state. -/
theorem update_matches_idempotent (s : FileComparisonDelegate) (q : String) :
    update_matches (update_matches s q) q = update_matches s q := by
  by_cases hq : q = "" <;>
    simp [update_matches, hq]

/-- Evaluation of `confirm` when both guards pass: the selected candidate
exists and the workspace upgrades. The state is returned unchanged and the
synchronous effects are one spawned diff task followed by the dismiss
signal. -/
theorem confirm_eval (s : FileComparisonDelegate) (sec : Bool) (m : FileMatch)
    (w : Nat) (hm : s.visible_matches.get? s.selected_index = some m)
    (hw : s.workspace = some w) :
    confirm s sec = ConfirmResult.ok s
      [ConfirmEvent.taskSpawned
        { active_buffer := s.active_buffer
          compare_buffer := m.buffer
          languages := s.project.languages
          project := s.project
          compare_title := m.display_text
          active_title :=
            (s.active_buffer.file.map (fun f => f.file_name)).getD "Untitled"
          workspace := w },
       ConfirmEvent.dismissSignal] := by
  have hne : s.visible_matches ≠ [] := by
    intro h
    rw [h] at hm
    exact absurd hm (by simp)
  have hbe : s.visible_matches.isEmpty = false := by
    simp [List.isEmpty_iff, hne]
  unfold confirm
  rw [hbe, hm, hw]
  rfl

/-- Claim C1: if the visible list is empty, or the state satisfies the
selection invariant and the weak workspace handle is dead, then `confirm`
(for either value of the secondary flag) is a pure no-op: the state is
returned unchanged and no task-spawn or dismiss effect is produced. -/
theorem confirm_guard_noop (s : FileComparisonDelegate) (sec : Bool) :
    (s.visible_matches = [] → confirm s sec = ConfirmResult.ok s []) ∧
    (Inv s → s.workspace = none → confirm s sec = ConfirmResult.ok s []) := by
  have hempty : s.visible_matches = [] →
      confirm s sec = ConfirmResult.ok s [] := by
    intro h
    unfold confirm
    rw [if_pos (by simp [List.isEmpty_iff, h])]
  refine ⟨hempty, fun hinv hw => ?_⟩
  rcases eq_or_ne s.visible_matches [] with he | hne
  · exact hempty he
  · have hlt : s.selected_index < s.visible_matches.length := hinv.2 hne
    obtain ⟨m, hm⟩ : ∃ m, s.visible_matches.get? s.selected_index = some m :=
      ⟨_, List.get?_eq_get hlt⟩
    have hbe : s.visible_matches.isEmpty = false := by
      simp [List.isEmpty_iff, hne]
    unfold confirm
    rw [hbe, hm, hw]
    rfl

/-- Witness for C1: both guards at concrete states — no candidates, and a
dead window reference. -/
theorem confirm_guard_noop_witness :
    confirm sampleEmpty true = ConfirmResult.ok sampleEmpty [] ∧
    confirm sampleDeadWindow false = ConfirmResult.ok sampleDeadWindow [] :=
  ⟨(confirm_guard_noop sampleEmpty true).1 rfl,
   (confirm_guard_noop sampleDeadWindow false).2
     (Inv_of_selected_index_zero sampleDeadWindow rfl) rfl⟩

/-- Claim C2: when both guards pass, `confirm` schedules exactly one diff
task, whose arguments are the snapshotted active buffer and the candidate
at `selected_index`; `compare_title` is that candidate's stored display
text, and `active_title` is the active buffer's file name when it has an
on-disk identity and `"Untitled"` otherwise. The state is unchanged. -/
theorem confirm_success_spec (s : FileComparisonDelegate) (sec : Bool)
    (m : FileMatch) (w : Nat)
    (hm : s.visible_matches.get? s.selected_index = some m)
    (hw : s.workspace = some w) :
    confirm s sec = ConfirmResult.ok s
      [ConfirmEvent.taskSpawned
        { active_buffer := s.active_buffer
          compare_buffer := m.buffer
          languages := s.project.languages
          project := s.project
          compare_title := m.display_text
          active_title :=
            (s.active_buffer.file.map (fun f => f.file_name)).getD "Untitled"
          workspace := w },
       ConfirmEvent.dismissSignal] :=
  confirm_eval s sec m w hm hw

/-- Witness for C2: the one-candidate state with active file `a.txt` and
candidate labelled `b.txt` spawns exactly `sampleTask`. -/
theorem confirm_success_spec_witness :
    confirm sampleState true = ConfirmResult.ok sampleState sampleEvents :=
  confirm_success_spec sampleState true
    { buffer := bufB, display_text := "b.txt" } 3 rfl rfl

/-- Claim C3: when both guards pass, every normal return of `confirm`
carries exactly one dismiss signal among its synchronous effects, and on
the UI-affine timeline (where a spawned task is only polled after the
synchronous confirm body returns) the dismiss signal strictly precedes
the diff task's completion event. -/
theorem confirm_dismiss_before_completion (s : FileComparisonDelegate)
    (sec : Bool) (m : FileMatch) (w : Nat)
    (hm : s.visible_matches.get? s.selected_index = some m)
    (hw : s.workspace = some w) :
    (∀ s' evs, confirm s sec = ConfirmResult.ok s' evs →
      evs.countP isDismiss = 1) ∧
    confirmTrace s sec
      = [SystemEvent.dismissSignal, SystemEvent.taskCompleted] ∧
    (∃ i j, i < j ∧
      (confirmTrace s sec).get? i = some SystemEvent.dismissSignal ∧
      (confirmTrace s sec).get? j = some SystemEvent.taskCompleted) := by
  have hval := confirm_eval s sec m w hm hw
  have htrace : confirmTrace s sec
      = [SystemEvent.dismissSignal, SystemEvent.taskCompleted] := by
    unfold confirmTrace
    rw [hval]
    rfl
  refine ⟨fun s' evs h => ?_, htrace, 0, 1, Nat.zero_lt_one, ?_, ?_⟩
  · rw [hval] at h
    cases h
    rfl
  · rw [htrace]
    rfl
  · rw [htrace]
    rfl

/-- Witness for C3 at the concrete one-candidate state. -/
theorem confirm_dismiss_before_completion_witness :
    confirmTrace sampleState true
      = [SystemEvent.dismissSignal, SystemEvent.taskCompleted] :=
  (confirm_dismiss_before_completion sampleState true
    { buffer := bufB, display_text := "b.txt" } 3 rfl rfl).2.1

/-- Claim C5: the selection-index invariant (index 0 on an empty visible
list, in range otherwise) holds at construction and is preserved by
`update_matches`, `set_selected_index`, `confirm` and `dismissed`; after
any `update_matches` the selected index is 0. -/
theorem selection_invariant_spec :
    (∀ ab ws pr obs, Inv (FileComparisonDelegate.new ab ws pr obs)) ∧
    (∀ s q, Inv (update_matches s q) ∧
      (update_matches s q).selected_index = 0) ∧
    (∀ s ix, Inv (set_selected_index s ix)) ∧
    (∀ s sec s' evs, confirm s sec = ConfirmResult.ok s' evs →
      Inv s → Inv s') ∧
    (∀ s, Inv s → Inv (dismissed s)) := by
  refine ⟨fun ab ws pr obs => Inv_of_selected_index_zero _ rfl,
    fun s q => ?_, fun s ix => ?_,
    fun s sec s' evs h hs => confirm_state_eq s sec s' evs h ▸ hs,
    fun s hs => hs⟩
  · have h0 : (update_matches s q).selected_index = 0 := by
      by_cases hq : q = "" <;> simp [update_matches, hq]
    exact ⟨Inv_of_selected_index_zero _ h0, h0⟩
  · refine ⟨fun h => ?_, fun hne => ?_⟩
    · have h' : s.visible_matches = [] := h
      show min ix (s.visible_matches.length - 1) = 0
      rw [h']
      simp
    · have hne' : s.visible_matches ≠ [] := hne
      have hpos : 0 < s.visible_matches.length := List.length_pos.mpr hne'
      show min ix (s.visible_matches.length - 1) < s.visible_matches.length
      omega

/-- Witness for C5: the invariant survives a confirm on the concrete
one-candidate state. -/
theorem selection_invariant_spec_witness :
    Inv sampleState :=
  selection_invariant_spec.2.2.2.1 sampleState true sampleState sampleEvents
    rfl (Inv_of_selected_index_zero sampleState rfl)

/-- Claim C6: when the external diff-building operation fails, the
spawned task records exactly one failure through the logging facility and
inserts nothing into any pane, regardless of the captured task arguments
or whether the window is still alive at completion time. -/
theorem runTask_failure_spec (t : DiffTask) (e : String) (alive : Bool) :
    runTask t (Except.error e) alive
      = { logFailures := 1, paneInsertions := [] } :=
  rfl

/-- Claim C9: `all_matches` is fixed at construction in the insertion
order of the supplied open-buffer list, and no operation modifies it;
`update_matches` mutates only the visible list and the selected index,
`set_selected_index` only the selected index, `confirm` and `dismissed`
leave the whole state unchanged (`render_match` takes the state
immutably and returns no state at all). -/
theorem frame_spec :
    (∀ ab ws pr obs, (FileComparisonDelegate.new ab ws pr obs).all_matches
      = obs.map (fun p => { buffer := p.1, display_text := p.2 })) ∧
    (∀ s q, (update_matches s q).all_matches = s.all_matches ∧
      (update_matches s q).active_buffer = s.active_buffer ∧
      (update_matches s q).workspace = s.workspace ∧
      (update_matches s q).project = s.project) ∧
    (∀ s ix, (set_selected_index s ix).all_matches = s.all_matches ∧
      (set_selected_index s ix).visible_matches = s.visible_matches ∧
      (set_selected_index s ix).active_buffer = s.active_buffer ∧
      (set_selected_index s ix).workspace = s.workspace ∧
      (set_selected_index s ix).project = s.project) ∧
    (∀ s sec s' evs, confirm s sec = ConfirmResult.ok s' evs → s' = s) ∧
    (∀ s, dismissed s = s) := by
  refine ⟨fun ab ws pr obs => rfl, fun s q => ?_, fun s ix => ⟨rfl, rfl, rfl, rfl, rfl⟩,
    fun s sec s' evs h => confirm_state_eq s sec s' evs h, fun s => rfl⟩
  refine ⟨?_, ?_, ?_, ?_⟩ <;> by_cases hq : q = "" <;> simp [update_matches, hq]

/-- Witness for C9: confirm leaves the concrete state untouched. -/
theorem frame_spec_witness : sampleState = sampleState :=
  frame_spec.2.2.2.1 sampleState true sampleState sampleEvents rfl

/-- Claim C10: `render_match` performs an unchecked index into the
visible list: out of range it hits the panic branch, never the `none`
the `Option` return type suggests; in range it returns `some` row whose
label is the candidate's display text, whose identity key is `ix`, and
whose toggle state equals the passed `selected` flag. -/
theorem render_match_spec (s : FileComparisonDelegate) (ix : Nat)
    (selected : Bool) :
    (s.visible_matches.length ≤ ix →
      render_match s ix selected = RenderResult.panicked) ∧
    (∀ m, s.visible_matches.get? ix = some m →
      render_match s ix selected = RenderResult.ret (some
        { id := ix
          inset := true
          sparse_spacing := true
          toggle_state := selected
          label := m.display_text })) ∧
    render_match s ix selected ≠ RenderResult.ret none := by
  refine ⟨fun h => ?_, fun m hm => ?_, ?_⟩
  · unfold render_match
    rw [List.get?_eq_none.mpr h]
  · unfold render_match
    rw [hm]
  · unfold render_match
    cases hg : s.visible_matches.get? ix <;> simp

/-- Witness for C10: in range at index 0 the row carries `b.txt`; index 1
is out of range on the one-candidate state and panics. -/
theorem render_match_spec_witness :
    render_match sampleState 0 true = RenderResult.ret (some
      { id := 0
        inset := true
        sparse_spacing := true
        toggle_state := true
        label := "b.txt" }) ∧
    render_match sampleState 1 false = RenderResult.panicked :=
  ⟨(render_match_spec sampleState 0 true).2.1
      { buffer := bufB, display_text := "b.txt" } rfl,
   (render_match_spec sampleState 1 false).1 (by decide)⟩

end FileComparison
